import Mathlib

/-!
Verification of the Bank Customer Churn Analysis dashboard
(`Bank Customer Churn Analysis/app.py`) against its specification.

The development shallowly embeds the dashboard's data core:
* the customer table rows (`Record`),
* the sidebar filter chain applied to the table (`apply_filters`, lines
  281-327 of `app.py`),
* the groupby aggregations producing churn rates per category
  (`get_churn_by_age`, `get_churn_by_balance`, `get_geo_churn`,
  `get_product_churn`, `get_gender_churn`, `get_active_churn`,
  lines 141-176),
* the per-category sample counts computed for chart hovers
  (`value_counts().reindex(...)`, lines 417, 458, 488, 559, 584),
* the headline churn-rate metric (lines 330-332), and
* the fallback heuristic churn scorer (lines 664-681).

Numeric columns are embedded as `ℤ` (Age, integer-valued in the data model)
and `ℚ` (Balance); churn rates are exact rationals, and the logistic
function of the fallback scorer lives in `ℝ`.
-/

/-- Geography column: the fixed label set of the dataset
("France" < "Germany" < "Spain" in the string order pandas sorts by). -/
inductive Geo where
  | France
  | Germany
  | Spain
deriving DecidableEq, Repr

/-- Gender column: fixed label set ("Female" < "Male" in string order). -/
inductive Gender where
  | Female
  | Male
deriving DecidableEq, Repr

/-- One row of the customer table (`CustomerRecord` of the spec; a row of
`Churn_Modelling.csv` restricted to the columns the core logic reads). -/
structure Record where
  geography : Geo
  gender : Gender
  age : ℤ
  balance : ℚ
  numProducts : ℕ
  isActive : Bool
  exited : Bool
deriving DecidableEq, Repr

/-- The sidebar selections that drive the filter chain (`FilterCriteria`):
geography checkboxes, the active-only checkbox, gender checkboxes, the two
range sliders and the product multiselect. Slider endpoints are integers
because `st.slider` is fed `int(...)` bounds (app.py lines 263-271). -/
structure FilterCriteria where
  geographies : List Geo
  activeOnly : Bool
  genders : List Gender
  ageRange : ℤ × ℤ
  balanceRange : ℤ × ℤ
  productsSel : List ℕ
deriving DecidableEq, Repr

/-- Geography stage (app.py lines 281-292): an empty checkbox selection is
replaced by `df["Geography"].unique().tolist()` before the `isin` filter. -/
def geoStage (df : List Record) (sel : List Geo) : List Record :=
  let geos := if sel.isEmpty then (df.map (·.geography)).dedup else sel
  df.filter (fun r => geos.contains r.geography)

/-- Active-members-only stage (app.py lines 294-295). -/
def activeStage (activeOnly : Bool) (l : List Record) : List Record :=
  if activeOnly then l.filter (fun r => r.isActive) else l

/-- Gender stage (app.py lines 297-303): the filter is applied only when the
selection list is non-empty (`if genders:`). -/
def genderStage (sel : List Gender) (l : List Record) : List Record :=
  if sel.isEmpty then l else l.filter (fun r => sel.contains r.gender)

/-- Age-range stage (app.py lines 306-312): inclusive bounds. -/
def ageStage (lo hi : ℤ) (l : List Record) : List Record :=
  l.filter (fun r => lo ≤ r.age ∧ r.age ≤ hi)

/-- Balance-range stage (app.py lines 314-320): inclusive integer slider
bounds compared against the rational balance column. -/
def balanceStage (lo hi : ℤ) (l : List Record) : List Record :=
  l.filter (fun r => (lo : ℚ) ≤ r.balance ∧ r.balance ≤ (hi : ℚ))

/-- Product-count stage (app.py lines 322-327): skipped when the multiselect
is empty (`if ... and products_sel:`). -/
def productsStage (sel : List ℕ) (l : List Record) : List Record :=
  if sel.isEmpty then l else l.filter (fun r => sel.contains r.numProducts)

/-- The whole filter chain of app.py lines 281-327, in source order:
geography, active-only, gender, age range, balance range, product count. -/
def apply_filters (df : List Record) (c : FilterCriteria) : List Record :=
  productsStage c.productsSel
    (balanceStage c.balanceRange.1 c.balanceRange.2
      (ageStage c.ageRange.1 c.ageRange.2
        (genderStage c.genders
          (activeStage c.activeOnly
            (geoStage df c.geographies)))))

/-- The same chain with the geography dimension absent (spec comparison
point for the empty-selection semantics). -/
def applyFiltersNoGeo (df : List Record) (c : FilterCriteria) : List Record :=
  productsStage c.productsSel
    (balanceStage c.balanceRange.1 c.balanceRange.2
      (ageStage c.ageRange.1 c.ageRange.2
        (genderStage c.genders
          (activeStage c.activeOnly df))))

/-- The same chain with the gender dimension absent. -/
def applyFiltersNoGender (df : List Record) (c : FilterCriteria) : List Record :=
  productsStage c.productsSel
    (balanceStage c.balanceRange.1 c.balanceRange.2
      (ageStage c.ageRange.1 c.ageRange.2
        (activeStage c.activeOnly
          (geoStage df c.geographies))))

/-- The same chain with the product-count dimension absent. -/
def applyFiltersNoProducts (df : List Record) (c : FilterCriteria) : List Record :=
  balanceStage c.balanceRange.1 c.balanceRange.2
    (ageStage c.ageRange.1 c.ageRange.2
      (genderStage c.genders
        (activeStage c.activeOnly
          (geoStage df c.geographies))))

/-- Python `int(...)` applied to a float: truncation toward zero, i.e.
toward-zero division of the numerator by the denominator. -/
def pyInt (q : ℚ) : ℤ :=
  Int.tdiv q.num (q.den : ℤ)

/-- Minimum of a column (pandas `.min()`); 0 stands in for the NaN a real
empty column would give, and is only relied upon for non-empty tables. -/
def colMin (l : List ℚ) : ℚ :=
  match l with
  | [] => 0
  | x :: xs => xs.foldl min x

/-- Maximum of a column (pandas `.max()`), same convention as `colMin`. -/
def colMax (l : List ℚ) : ℚ :=
  match l with
  | [] => 0
  | x :: xs => xs.foldl max x

/-- Integer column minimum, for Age. -/
def colMinZ (l : List ℤ) : ℤ :=
  match l with
  | [] => 0
  | x :: xs => xs.foldl min x

/-- Integer column maximum, for Age. -/
def colMaxZ (l : List ℤ) : ℤ :=
  match l with
  | [] => 0
  | x :: xs => xs.foldl max x

/-- The sidebar's default criteria (app.py lines 233-276): every geography
and gender checkbox on, active-only off, sliders at
`(int(col.min()), int(col.max()))`, and the product multiselect defaulted to
all observed values (`sorted(df["NumOfProducts"].unique().tolist())`). -/
def defaultCriteria (df : List Record) : FilterCriteria :=
  { geographies := [Geo.France, Geo.Germany, Geo.Spain]
  , activeOnly := false
  , genders := [Gender.Male, Gender.Female]
  , ageRange := (colMinZ (df.map (·.age)), colMaxZ (df.map (·.age)))
  , balanceRange := (pyInt (colMin (df.map (·.balance))),
                     pyInt (colMax (df.map (·.balance))))
  , productsSel := List.insertionSort (· ≤ ·) (df.map (·.numProducts)).dedup }

/-- Churn percentage of a group: `Exited.mean() * 100` (exact rational;
the `/ 0 = 0` convention of `ℚ` is never relied on for observed groups). -/
def churnPct (l : List Record) : ℚ :=
  ((l.countP (·.exited) : ℚ) / (l.length : ℚ)) * 100

/-- Age bin of `pd.cut(age, bins=[18,25,35,45,60,inf], labels=...)` with the
pandas defaults `right=True, include_lowest=False`: the intervals are
(18,25], (25,35], (35,45], (45,60], (60,inf]; values ≤ 18 get NaN (`none`). -/
def ageBin (a : ℤ) : Option ℕ :=
  if 18 < a ∧ a ≤ 25 then some 0
  else if 25 < a ∧ a ≤ 35 then some 1
  else if 35 < a ∧ a ≤ 45 then some 2
  else if 45 < a ∧ a ≤ 60 then some 3
  else if 60 < a then some 4
  else none

/-- The age-bin labels of app.py line 145 (indices past 4 are unused). -/
def ageLabels : ℕ → String
  | 0 => "18-25"
  | 1 => "26-35"
  | 2 => "36-45"
  | 3 => "46-60"
  | _ => "60+"

/-- Balance bin of `pd.cut(balance, bins=[0,50000,100000,150000,200000,inf])`
with the same pandas defaults: intervals (0,50000], (50000,100000],
(100000,150000], (150000,200000], (200000,inf]; values ≤ 0 get NaN. -/
def balanceBin (b : ℚ) : Option ℕ :=
  if 0 < b ∧ b ≤ 50000 then some 0
  else if 50000 < b ∧ b ≤ 100000 then some 1
  else if 100000 < b ∧ b ≤ 150000 then some 2
  else if 150000 < b ∧ b ≤ 200000 then some 3
  else if 200000 < b then some 4
  else none

/-- The balance-bin labels of app.py line 154 (indices past 4 are unused). -/
def balanceLabels : ℕ → String
  | 0 => "0-50K"
  | 1 => "50-100K"
  | 2 => "100-150K"
  | 3 => "150-200K"
  | _ => "200K+"

/-- `get_churn_by_age` (app.py lines 141-147): group by the cut bins with
`observed=True` (only bins that occur appear, NaN rows are dropped, groups
come out in the categorical label order) and take `Exited.mean() * 100`. -/
def get_churn_by_age (df : List Record) : List (String × ℚ) :=
  ((List.range 5).filter
      (fun i => df.any (fun r => ageBin r.age = some i))).map
    (fun i => (ageLabels i, churnPct (df.filter (fun r => ageBin r.age = some i))))

/-- `get_churn_by_balance` (app.py lines 150-156), same shape as the age
aggregation but over the balance bins. -/
def get_churn_by_balance (df : List Record) : List (String × ℚ) :=
  ((List.range 5).filter
      (fun i => df.any (fun r => balanceBin r.balance = some i))).map
    (fun i => (balanceLabels i, churnPct (df.filter (fun r => balanceBin r.balance = some i))))

/-- The canonical geography order France < Germany < Spain that
`groupby("Geography")` (sort=True on the string labels) produces. -/
def canonicalGeos : List Geo := [Geo.France, Geo.Germany, Geo.Spain]

/-- `get_geo_churn` (app.py lines 159-161): `groupby` over the observed
geography labels in ascending label order, `Exited.mean() * 100`. -/
def get_geo_churn (df : List Record) : List (Geo × ℚ) :=
  (canonicalGeos.filter (fun g => df.any (fun r => r.geography = g))).map
    (fun g => (g, churnPct (df.filter (fun r => r.geography = g))))

/-- `get_product_churn` (app.py lines 164-166): `groupby("NumOfProducts")`,
observed keys sorted ascending. -/
def get_product_churn (df : List Record) : List (ℕ × ℚ) :=
  (List.insertionSort (· ≤ ·) (df.map (·.numProducts)).dedup).map
    (fun k => (k, churnPct (df.filter (fun r => r.numProducts = k))))

/-- The canonical gender order Female < Male of the string labels. -/
def canonicalGenders : List Gender := [Gender.Female, Gender.Male]

/-- `get_gender_churn` (app.py lines 169-171): `groupby("Gender")` over the
observed labels in ascending label order. -/
def get_gender_churn (df : List Record) : List (Gender × ℚ) :=
  (canonicalGenders.filter (fun g => df.any (fun r => r.gender = g))).map
    (fun g => (g, churnPct (df.filter (fun r => r.gender = g))))

/-- `get_active_churn` (app.py lines 174-176):
`groupby("IsActiveMember")["Exited"].mean().reindex([0, 1]).fillna(0) * 100`
— always both labels, in the order Inactive (0), Active (1), with a missing
group's NaN replaced by 0 before scaling. -/
def get_active_churn (df : List Record) : List (Bool × ℚ) :=
  [false, true].map
    (fun b =>
      let grp := df.filter (fun r => r.isActive = b)
      (b, if grp.isEmpty then 0 else churnPct grp))

/-- Per-category sample counts attached to a chart:
`value_counts().reindex(index).fillna(0)` over the keys of an aggregation
result (app.py lines 417, 458, 488, 559, 584); the count of a key is the
number of filtered rows carrying it. -/
def sampleCounts {K : Type} (df : List Record) (key : Record → K)
    [DecidableEq K] (index : List K) : List (K × ℕ) :=
  index.map (fun k => (k, (df.filter (fun r => key r = k)).length))

/-- The headline churn-rate metric (app.py lines 330-332): percentage of
exited rows, defined as 0 for an empty filtered table. -/
def churnRateMetric (df : List Record) : ℚ :=
  if 0 < df.length then ((df.countP (·.exited) : ℚ) / (df.length : ℚ)) * 100 else 0

/-- The fallback heuristic score (app.py lines 666-678): sequential
additions to a float starting at 0, here exact in `ℚ`. -/
def fallbackScore (age : ℤ) (balance : ℤ) (numProducts : ℤ)
    (isActive : Bool) (gender : Gender) (geography : Geo) : ℚ :=
  let s0 : ℚ := 0
  let s1 := s0 + ((age : ℚ) - 40) * (2 / 100)
  let s2 := s1 + ((balance : ℚ) - 50000) / 200000
  let s3 := s2 + ((numProducts : ℚ) - 1) * (15 / 100)
  let s4 := s3 + (if isActive then -(1 / 10) else 2 / 5)
  let s5 := s4 + (if geography = Geo.Germany then 1 / 10 else 0)
  let s6 := s5 + (if gender = Gender.Male then 1 / 20 else 0)
  s6

/-- The logistic function `1 / (1 + e^(-x))` of app.py line 679. -/
noncomputable def logistic (x : ℝ) : ℝ :=
  1 / (1 + Real.exp (-x))

/-- The fallback predicted probability (app.py lines 679-681): logistic of
the score, then `max(0.0, min(1.0, prob))`. -/
noncomputable def fallbackProb (age : ℤ) (balance : ℤ) (numProducts : ℤ)
    (isActive : Bool) (gender : Gender) (geography : Geo) : ℝ :=
  max 0 (min 1 (logistic ((fallbackScore age balance numProducts isActive gender geography : ℚ) : ℝ)))

/-- A plain in-domain sample row used to instantiate universally
quantified theorems. -/
def rSample : Record := ⟨Geo.Germany, Gender.Male, 40, 60000, 2, true, true⟩

/-- A row at the lower bin edges: age exactly 18 and balance exactly 0. -/
def rEdge : Record := ⟨Geo.France, Gender.Female, 18, 0, 1, true, false⟩

/-- A row in the middle of the second age bin (age 30). -/
def rThirty : Record := ⟨Geo.France, Gender.Female, 30, 60000, 1, true, true⟩

/-- The rational 1/2, written as a raw numerator/denominator pair so that
it is a literal for kernel evaluation. -/
def halfQ : ℚ := ⟨1, 2, by decide, by decide⟩

/-- A one-row table whose balance is the non-integer 1/2, exposing the
`int(...)` truncation of the default balance slider bounds. -/
def tblHalf : List Record := [⟨Geo.France, Gender.Female, 40, halfQ, 1, true, false⟩]

/-- Sample criteria with an empty geography selection and every other
dimension constrained but satisfiable by `rSample`. -/
def cEmptyGeo : FilterCriteria := ⟨[], false, [Gender.Male], (18, 92), (0, 260000), [2]⟩

/-- Sample criteria with an empty gender selection. -/
def cEmptyGender : FilterCriteria := ⟨[Geo.Germany], false, [], (18, 92), (0, 260000), [2]⟩

/-- Sample criteria with an empty product multiselect. -/
def cEmptyProducts : FilterCriteria := ⟨[Geo.Germany], false, [Gender.Male], (18, 92), (0, 260000), []⟩

/-- Sample criteria whose age slider is malformed (min above max). -/
def cBadAge : FilterCriteria := ⟨[], false, [], (50, 20), (0, 260000), []⟩

/-- Sample criteria whose balance range lies entirely outside the data. -/
def cFarBalance : FilterCriteria := ⟨[], false, [], (0, 100), (500000, 900000), []⟩

/-- Modelled from the spec (section 6, prediction heuristic boundary): the
closed-form fallback as the spec words it — start at 0, add
`(age-40)*0.02`, add `(balance-50000)/200000`, add `(num_products-1)*0.15`,
add `0.4` if inactive else subtract `0.1`, add `0.1` if geography is
"Germany", add `0.05` if gender is "Male"; logistic; clamp to `[0,1]`. -/
noncomputable def specFallbackProb (age : ℤ) (balance : ℤ) (numProducts : ℤ)
    (isActive : Bool) (gender : Gender) (geography : Geo) : ℝ :=
  let score : ℝ :=
    ((age : ℝ) - 40) * 0.02 + ((balance : ℝ) - 50000) / 200000 +
      ((numProducts : ℝ) - 1) * 0.15 +
      (if isActive then -0.1 else 0.4) +
      (if geography = Geo.Germany then 0.1 else 0) +
      (if gender = Gender.Male then 0.05 else 0)
  max 0 (min 1 (1 / (1 + Real.exp (-score))))

/-! ## Helper lemmas -/

theorem geoStage_nil (df : List Record) : geoStage df [] = df := by
  unfold geoStage
  simp only [List.isEmpty_nil, if_true]
  apply List.filter_eq_self.mpr
  intro r hr
  have : r.geography ∈ (df.map (·.geography)).dedup :=
    List.mem_dedup.mpr (List.mem_map.mpr ⟨r, hr, rfl⟩)
  simpa using this

theorem genderStage_nil (l : List Record) : genderStage [] l = l := rfl

theorem productsStage_nil (l : List Record) : productsStage [] l = l := rfl

/-! ## Claims -/

/-- C1: an empty selected set for a categorical inclusion dimension
(geography, gender, product count) imposes no constraint: the filter chain
returns exactly what the chain with that dimension absent returns, and this
holds independently for each of the three dimensions. -/
theorem empty_inclusion_set_is_no_constraint
    (df : List Record) (c : FilterCriteria) :
    (c.geographies = [] → apply_filters df c = applyFiltersNoGeo df c) ∧
    (c.genders = [] → apply_filters df c = applyFiltersNoGender df c) ∧
    (c.productsSel = [] → apply_filters df c = applyFiltersNoProducts df c) := by
  refine ⟨fun h => ?_, fun h => ?_, fun h => ?_⟩
  · unfold apply_filters applyFiltersNoGeo
    rw [h, geoStage_nil]
  · unfold apply_filters applyFiltersNoGender
    rw [h, genderStage_nil]
  · unfold apply_filters applyFiltersNoProducts
    rw [h, productsStage_nil]

/-- C1 witness: the empty-set semantics evaluated on concrete tables and
criteria, one instance per categorical dimension. -/
theorem empty_inclusion_set_is_no_constraint_witness :
    (apply_filters [rSample, rEdge] cEmptyGeo = applyFiltersNoGeo [rSample, rEdge] cEmptyGeo) ∧
    (apply_filters [rSample, rEdge] cEmptyGender = applyFiltersNoGender [rSample, rEdge] cEmptyGender) ∧
    (apply_filters [rSample, rEdge] cEmptyProducts = applyFiltersNoProducts [rSample, rEdge] cEmptyProducts) :=
  ⟨(empty_inclusion_set_is_no_constraint [rSample, rEdge] cEmptyGeo).1 rfl,
   (empty_inclusion_set_is_no_constraint [rSample, rEdge] cEmptyGender).2.1 rfl,
   (empty_inclusion_set_is_no_constraint [rSample, rEdge] cEmptyProducts).2.2 rfl⟩

/-- C2: evaluation of the filter chain at its own default criteria on a
table whose only balance is 1/2. The default balance bounds are
`int(df["Balance"].min()), int(df["Balance"].max())`, i.e. (0, 0), so the
single record — whose balance 1/2 exceeds the truncated maximum — is
dropped and the chain is not the identity the spec requires. -/
theorem default_criteria_truncation_drops_max_balance :
    apply_filters tblHalf (defaultCriteria tblHalf) = [] ∧ tblHalf ≠ [] := by
  decide

/-- Helper: every record surviving the geography stage came from the table. -/
theorem mem_of_mem_geoStage {df : List Record} {sel : List Geo} {r : Record}
    (h : r ∈ geoStage df sel) : r ∈ df := by
  unfold geoStage at h
  exact (List.mem_filter.mp h).1

/-- Helper: the active stage only discards records. -/
theorem mem_of_mem_activeStage {b : Bool} {l : List Record} {r : Record}
    (h : r ∈ activeStage b l) : r ∈ l := by
  unfold activeStage at h
  split at h
  · exact (List.mem_filter.mp h).1
  · exact h

/-- Helper: the gender stage only discards records. -/
theorem mem_of_mem_genderStage {sel : List Gender} {l : List Record} {r : Record}
    (h : r ∈ genderStage sel l) : r ∈ l := by
  unfold genderStage at h
  split at h
  · exact h
  · exact (List.mem_filter.mp h).1

/-- Helper: the age stage only discards records. -/
theorem mem_of_mem_ageStage {lo hi : ℤ} {l : List Record} {r : Record}
    (h : r ∈ ageStage lo hi l) : r ∈ l := by
  unfold ageStage at h
  exact (List.mem_filter.mp h).1

/-- Helper: the product stage of an empty list is empty. -/
theorem productsStage_nil_input (sel : List ℕ) : productsStage sel [] = [] := by
  unfold productsStage
  split <;> rfl

/-- Helper: the balance stage of an empty list is empty. -/
theorem balanceStage_nil_input (lo hi : ℤ) : balanceStage lo hi [] = [] := rfl

/-- C7: the filter chain is a total function (it cannot raise by
construction) and malformed or out-of-domain numeric ranges merely make it
return the empty list: an inverted age or balance slider (min above max)
gives `[]`, and an age or balance range containing none of the table's
values gives `[]`. -/
theorem malformed_or_disjoint_ranges_yield_empty
    (df : List Record) (c : FilterCriteria) :
    (c.ageRange.2 < c.ageRange.1 → apply_filters df c = []) ∧
    (c.balanceRange.2 < c.balanceRange.1 → apply_filters df c = []) ∧
    ((∀ r ∈ df, r.age < c.ageRange.1 ∨ c.ageRange.2 < r.age) →
      apply_filters df c = []) ∧
    ((∀ r ∈ df, r.balance < (c.balanceRange.1 : ℚ) ∨ (c.balanceRange.2 : ℚ) < r.balance) →
      apply_filters df c = []) := by
  refine ⟨fun h => ?_, fun h => ?_, fun h => ?_, fun h => ?_⟩
  · unfold apply_filters
    have h4 : ageStage c.ageRange.1 c.ageRange.2
        (genderStage c.genders (activeStage c.activeOnly (geoStage df c.geographies))) = [] := by
      unfold ageStage
      rw [List.filter_eq_nil_iff]
      intro r _
      simp only [decide_eq_true_eq, not_and, not_le]
      intro hlo
      omega
    rw [h4, balanceStage_nil_input, productsStage_nil_input]
  · unfold apply_filters
    have h5 : ∀ l : List Record,
        balanceStage c.balanceRange.1 c.balanceRange.2 l = [] := by
      intro l
      unfold balanceStage
      rw [List.filter_eq_nil_iff]
      intro r _
      simp only [decide_eq_true_eq, not_and, not_le]
      intro hlo
      calc (c.balanceRange.2 : ℚ) < (c.balanceRange.1 : ℚ) := by exact_mod_cast h
        _ ≤ r.balance := hlo
    rw [h5, productsStage_nil_input]
  · unfold apply_filters
    have h4 : ageStage c.ageRange.1 c.ageRange.2
        (genderStage c.genders (activeStage c.activeOnly (geoStage df c.geographies))) = [] := by
      unfold ageStage
      rw [List.filter_eq_nil_iff]
      intro r hr
      have hdf : r ∈ df :=
        mem_of_mem_geoStage (mem_of_mem_activeStage (mem_of_mem_genderStage hr))
      simp only [decide_eq_true_eq, not_and, not_le]
      intro hlo
      rcases h r hdf with h1 | h1
      · omega
      · omega
    rw [h4, balanceStage_nil_input, productsStage_nil_input]
  · unfold apply_filters
    have h5 : balanceStage c.balanceRange.1 c.balanceRange.2
        (ageStage c.ageRange.1 c.ageRange.2
          (genderStage c.genders (activeStage c.activeOnly (geoStage df c.geographies)))) = [] := by
      unfold balanceStage
      rw [List.filter_eq_nil_iff]
      intro r hr
      have hdf : r ∈ df :=
        mem_of_mem_geoStage (mem_of_mem_activeStage (mem_of_mem_genderStage
          (mem_of_mem_ageStage hr)))
      simp only [decide_eq_true_eq, not_and, not_le]
      intro hlo
      rcases h r hdf with h1 | h1
      · exact absurd hlo (not_le.mpr h1)
      · exact h1
    rw [h5, productsStage_nil_input]

/-- C7 witness: a concrete inverted age slider and a concrete balance range
disjoint from the data, both yielding the empty list on a sample table. -/
theorem malformed_or_disjoint_ranges_yield_empty_witness :
    apply_filters [rSample, rEdge] cBadAge = [] ∧
    apply_filters [rSample, rEdge] cFarBalance = [] :=
  ⟨(malformed_or_disjoint_ranges_yield_empty [rSample, rEdge] cBadAge).1 (by decide),
   (malformed_or_disjoint_ranges_yield_empty [rSample, rEdge] cFarBalance).2.2.2
     (by decide)⟩

/-- C3 counterexample: a record sitting exactly on the claimed closed lower
edges — age 18 and balance 0 — is assigned to no bin at all (pandas `cut`
leaves the lowest edge out by default), so it vanishes from both binned
aggregations instead of landing in the first bin. -/
theorem lowest_edge_record_in_no_bin :
    ageBin rEdge.age = none ∧ balanceBin rEdge.balance = none ∧
    get_churn_by_age [rEdge] = [] ∧ get_churn_by_balance [rEdge] = [] := by
  decide

/-- C3 amended: the bins are left-open: age (18,25], (25,35], (35,45],
(45,60], (60,∞) and balance (0,50000], (50000,100000], (100000,150000],
(150000,200000], (200000,∞); every value strictly above the lowest edge
falls in exactly one bin, values at or below the lowest edge (age 18,
balance 0 included) are excluded from all bins, age 25 falls in "18-25"
and age 26 falls in "26-35". -/
theorem bin_assignment_left_open
    (a : ℤ) (b : ℚ) :
    (a ≤ 18 → ageBin a = none) ∧
    (18 < a → ∃ i, ageBin a = some i) ∧
    (ageBin a = some 0 ↔ 18 < a ∧ a ≤ 25) ∧
    (ageBin a = some 1 ↔ 25 < a ∧ a ≤ 35) ∧
    (ageBin a = some 2 ↔ 35 < a ∧ a ≤ 45) ∧
    (ageBin a = some 3 ↔ 45 < a ∧ a ≤ 60) ∧
    (ageBin a = some 4 ↔ 60 < a) ∧
    (b ≤ 0 → balanceBin b = none) ∧
    (0 < b → ∃ i, balanceBin b = some i) ∧
    (balanceBin b = some 0 ↔ 0 < b ∧ b ≤ 50000) ∧
    (balanceBin b = some 1 ↔ 50000 < b ∧ b ≤ 100000) ∧
    (balanceBin b = some 2 ↔ 100000 < b ∧ b ≤ 150000) ∧
    (balanceBin b = some 3 ↔ 150000 < b ∧ b ≤ 200000) ∧
    (balanceBin b = some 4 ↔ 200000 < b) ∧
    ageBin 25 = some 0 ∧ ageLabels 0 = "18-25" ∧
    ageBin 26 = some 1 ∧ ageLabels 1 = "26-35" := by
  refine ⟨?_, ?_, ?_, ?_, ?_, ?_, ?_, ?_, ?_, ?_, ?_, ?_, ?_, ?_, by decide,
    rfl, by decide, rfl⟩
  · intro h
    unfold ageBin
    split_ifs <;> first | rfl | omega
  · intro h
    unfold ageBin
    split_ifs <;> first | exact ⟨_, rfl⟩ | omega
  · unfold ageBin
    split_ifs <;> simp <;> omega
  · unfold ageBin
    split_ifs <;> simp <;> omega
  · unfold ageBin
    split_ifs <;> simp <;> omega
  · unfold ageBin
    split_ifs <;> simp <;> omega
  · unfold ageBin
    split_ifs <;> simp <;> omega
  · intro h
    unfold balanceBin
    split_ifs <;> first | rfl | linarith
  · intro h
    unfold balanceBin
    split_ifs with h1 h2 h3 h4 h5
    · exact ⟨_, rfl⟩
    · exact ⟨_, rfl⟩
    · exact ⟨_, rfl⟩
    · exact ⟨_, rfl⟩
    · exact ⟨_, rfl⟩
    · exfalso
      push_neg at h1 h2 h3 h4
      exact h5 (h4 (h3 (h2 (h1 h))))
  · unfold balanceBin
    split_ifs with h1 h2 h3 h4 h5
    · exact iff_of_true rfl h1
    · exact iff_of_false (by decide) h1
    · exact iff_of_false (by decide) h1
    · exact iff_of_false (by decide) h1
    · exact iff_of_false (by decide) h1
    · exact iff_of_false (by simp) h1
  · unfold balanceBin
    split_ifs with h1 h2 h3 h4 h5
    · exact iff_of_false (by decide) (fun hc => absurd hc.1 (not_lt.mpr (by linarith)))
    · exact iff_of_true rfl h2
    · exact iff_of_false (by decide) h2
    · exact iff_of_false (by decide) h2
    · exact iff_of_false (by decide) h2
    · exact iff_of_false (by simp) h2
  · unfold balanceBin
    split_ifs with h1 h2 h3 h4 h5
    · exact iff_of_false (by decide) (fun hc => absurd hc.1 (not_lt.mpr (by linarith)))
    · exact iff_of_false (by decide) (fun hc => absurd hc.1 (not_lt.mpr (by linarith)))
    · exact iff_of_true rfl h3
    · exact iff_of_false (by decide) h3
    · exact iff_of_false (by decide) h3
    · exact iff_of_false (by simp) h3
  · unfold balanceBin
    split_ifs with h1 h2 h3 h4 h5
    · exact iff_of_false (by decide) (fun hc => absurd hc.1 (not_lt.mpr (by linarith)))
    · exact iff_of_false (by decide) (fun hc => absurd hc.1 (not_lt.mpr (by linarith)))
    · exact iff_of_false (by decide) (fun hc => absurd hc.1 (not_lt.mpr (by linarith)))
    · exact iff_of_true rfl h4
    · exact iff_of_false (by decide) h4
    · exact iff_of_false (by simp) h4
  · unfold balanceBin
    split_ifs with h1 h2 h3 h4 h5
    · exact iff_of_false (by decide) (fun hc => absurd hc (not_lt.mpr (by linarith)))
    · exact iff_of_false (by decide) (fun hc => absurd hc (not_lt.mpr (by linarith)))
    · exact iff_of_false (by decide) (fun hc => absurd hc (not_lt.mpr (by linarith)))
    · exact iff_of_false (by decide) (fun hc => absurd hc (not_lt.mpr (by linarith)))
    · exact iff_of_true rfl h5
    · exact iff_of_false (by simp) h5

/-- C3 amended witness: the characterization instantiated at age 30 and
balance 60000, both landing in the second bin. -/
theorem bin_assignment_left_open_witness :
    ageBin 30 = some 1 ∧ balanceBin 60000 = some 1 :=
  ⟨((bin_assignment_left_open 30 60000).2.2.2.1).mpr (by decide),
   ((bin_assignment_left_open 30 60000).2.2.2.2.2.2.2.2.2.2.1).mpr (by decide)⟩

/-- Helper: the age-bin labels are pairwise distinct on indices 0..4. -/
theorem ageLabels_inj :
    ∀ i ∈ List.range 5, ∀ j ∈ List.range 5, ageLabels i = ageLabels j → i = j := by
  decide

/-- Helper: the balance-bin labels are pairwise distinct on indices 0..4. -/
theorem balanceLabels_inj :
    ∀ i ∈ List.range 5, ∀ j ∈ List.range 5, balanceLabels i = balanceLabels j → i = j := by
  decide

/-- Helper: the label column of the age aggregation is the canonically
ordered list of observed bin indices mapped through the labels. -/
theorem get_churn_by_age_labels (df : List Record) :
    (get_churn_by_age df).map Prod.fst =
      ((List.range 5).filter (fun i => df.any (fun r => ageBin r.age = some i))).map ageLabels := by
  unfold get_churn_by_age
  rw [List.map_map]
  rfl

/-- Helper: same as `get_churn_by_age_labels`, for balances. -/
theorem get_churn_by_balance_labels (df : List Record) :
    (get_churn_by_balance df).map Prod.fst =
      ((List.range 5).filter (fun i => df.any (fun r => balanceBin r.balance = some i))).map balanceLabels := by
  unfold get_churn_by_balance
  rw [List.map_map]
  rfl

/-- C4 counterexample: on a one-record table (age 30, balance 60000) the
age aggregation reports the single observed bin "26-35"; the four other
canonical age labels, "18-25" among them, are absent instead of being
reported with churn rate 0 and sample count 0. -/
theorem empty_bins_absent_from_age_result :
    (get_churn_by_age [rThirty]).map Prod.fst = ["26-35"] ∧
    "18-25" ∉ (get_churn_by_age [rThirty]).map Prod.fst := by
  decide

/-- C4 amended: only the Active/Inactive dimension carries its canonical
label set through the aggregation — `get_active_churn` always reports
exactly the labels Inactive, Active in that order and gives a 0 rate to an
empty group — while the age and balance aggregations report exactly the
observed canonical bin labels, in canonical bin order (a sublist of the
five fixed labels, never a label outside them), omitting empty bins. -/
theorem canonical_labels_only_for_active_dimension (df : List Record) :
    ((get_active_churn df).map Prod.fst = [false, true]) ∧
    (∀ p ∈ get_active_churn df, df.filter (fun r => r.isActive = p.1) = [] → p.2 = 0) ∧
    List.Sublist ((get_churn_by_age df).map Prod.fst) ((List.range 5).map ageLabels) ∧
    (∀ i ∈ List.range 5,
      (ageLabels i ∈ (get_churn_by_age df).map Prod.fst ↔
        df.any (fun r => ageBin r.age = some i) = true)) ∧
    List.Sublist ((get_churn_by_balance df).map Prod.fst) ((List.range 5).map balanceLabels) ∧
    (∀ i ∈ List.range 5,
      (balanceLabels i ∈ (get_churn_by_balance df).map Prod.fst ↔
        df.any (fun r => balanceBin r.balance = some i) = true)) := by
  refine ⟨rfl, ?_, ?_, ?_, ?_, ?_⟩
  · intro p hp hempty
    rcases List.mem_map.mp hp with ⟨b, _, rfl⟩
    simp only
    rw [show df.filter (fun r => r.isActive = b) = [] from hempty]
    rfl
  · rw [get_churn_by_age_labels]
    exact List.Sublist.map ageLabels (List.filter_sublist _)
  · intro i hi
    rw [get_churn_by_age_labels]
    constructor
    · intro hmem
      rcases List.mem_map.mp hmem with ⟨j, hj, hlab⟩
      have hji := List.mem_filter.mp hj
      rw [ageLabels_inj j hji.1 i hi hlab] at hji
      simpa using hji.2
    · intro hobs
      exact List.mem_map.mpr ⟨i, List.mem_filter.mpr ⟨hi, by simpa using hobs⟩, rfl⟩
  · rw [get_churn_by_balance_labels]
    exact List.Sublist.map balanceLabels (List.filter_sublist _)
  · intro i hi
    rw [get_churn_by_balance_labels]
    constructor
    · intro hmem
      rcases List.mem_map.mp hmem with ⟨j, hj, hlab⟩
      have hji := List.mem_filter.mp hj
      rw [balanceLabels_inj j hji.1 i hi hlab] at hji
      simpa using hji.2
    · intro hobs
      exact List.mem_map.mpr ⟨i, List.mem_filter.mpr ⟨hi, by simpa using hobs⟩, rfl⟩

/-- C4 amended witness: on the one-record table, the active dimension
reports both canonical labels, the empty Inactive group is reported with
rate 0, and the observed age label "26-35" is present in the age result. -/
theorem canonical_labels_only_for_active_dimension_witness :
    (get_active_churn [rThirty]).map Prod.fst = [false, true] ∧
    ((false : Bool), (0 : ℚ)).2 = 0 ∧
    ageLabels 1 ∈ (get_churn_by_age [rThirty]).map Prod.fst :=
  ⟨(canonical_labels_only_for_active_dimension [rThirty]).1,
   (canonical_labels_only_for_active_dimension [rThirty]).2.1
      ((false : Bool), (0 : ℚ)) (by decide) (by decide),
   ((canonical_labels_only_for_active_dimension [rThirty]).2.2.2.1 1 (by decide)).mpr (by decide)⟩

/-- C5 counterexample: the spec's baseline tuple (age 40, balance 50000,
one product, active, Female, France) does not score 0 — the active-member
branch subtracts 0.1, so the intermediate score is -0.1. -/
theorem baseline_tuple_score_not_zero :
    fallbackScore 40 50000 1 true Gender.Female Geo.France ≠ 0 := by
  have hg : (if Geo.France = Geo.Germany then (1:ℚ)/10 else 0) = 0 := rfl
  have hgen : (if Gender.Female = Gender.Male then (1:ℚ)/20 else 0) = 0 := rfl
  norm_num [fallbackScore, hg, hgen]

/-- C5 amended: the baseline tuple scores -1/10 (the active branch
subtracts 0.1 and every other term vanishes), so the predicted probability
is 1 / (1 + e^(1/10)), strictly below 0.5. -/
theorem baseline_tuple_probability_below_half :
    fallbackScore 40 50000 1 true Gender.Female Geo.France = -(1/10) ∧
    fallbackProb 40 50000 1 true Gender.Female Geo.France = 1 / (1 + Real.exp (1/10)) ∧
    fallbackProb 40 50000 1 true Gender.Female Geo.France < 1/2 := by
  have hsc : fallbackScore 40 50000 1 true Gender.Female Geo.France = -(1/10) := by
    have hg : (if Geo.France = Geo.Germany then (1:ℚ)/10 else 0) = 0 := rfl
    have hgen : (if Gender.Female = Gender.Male then (1:ℚ)/20 else 0) = 0 := rfl
    norm_num [fallbackScore, hg, hgen]
  have hcast : ((fallbackScore 40 50000 1 true Gender.Female Geo.France : ℚ) : ℝ)
      = -(1/10 : ℝ) := by
    rw [hsc]
    push_cast
    ring
  have he : (1 : ℝ) < Real.exp (1/10) := Real.one_lt_exp_iff.mpr (by norm_num)
  have hden : (0 : ℝ) < 1 + Real.exp (1/10) := by linarith
  have hv0 : (0 : ℝ) < 1 / (1 + Real.exp (1/10)) := by positivity
  have hv1 : 1 / (1 + Real.exp (1/10)) ≤ 1 := by
    rw [div_le_one hden]
    linarith
  have hval : fallbackProb 40 50000 1 true Gender.Female Geo.France
      = 1 / (1 + Real.exp (1/10)) := by
    unfold fallbackProb logistic
    rw [hcast, neg_neg]
    rw [min_eq_right hv1, max_eq_right hv0.le]
  refine ⟨hsc, hval, ?_⟩
  rw [hval, div_lt_div_iff₀ hden (by norm_num)]
  linarith

/-- C6: for every feature tuple the fallback prediction the code computes
equals the spec's closed-form formula — the stated coefficients, the
logistic function, and the clamp to [0,1]. -/
theorem fallback_prob_matches_spec_formula
    (age balance numProducts : ℤ) (isActive : Bool) (gender : Gender)
    (geography : Geo) :
    fallbackProb age balance numProducts isActive gender geography =
      specFallbackProb age balance numProducts isActive gender geography := by
  have hs : ((fallbackScore age balance numProducts isActive gender geography : ℚ) : ℝ) =
      ((age : ℝ) - 40) * 0.02 + ((balance : ℝ) - 50000) / 200000 +
        ((numProducts : ℝ) - 1) * 0.15 +
        (if isActive then -0.1 else 0.4) +
        (if geography = Geo.Germany then 0.1 else 0) +
        (if gender = Gender.Male then 0.05 else 0) := by
    unfold fallbackScore
    cases isActive <;> cases gender <;> cases geography <;>
      (push_cast; norm_num)
  unfold fallbackProb specFallbackProb logistic
  rw [hs]

/-- Helper: summing an indicator over a list counts occurrences. -/
theorem sum_indicator {K : Type} [DecidableEq K] (x : K) (keys : List K) :
    (keys.map (fun k => if x = k then (1 : ℕ) else 0)).sum = keys.count x := by
  induction keys with
  | nil => simp
  | cons k ks ih =>
      by_cases h : x = k
      · subst h
        simp [List.count_cons, ih, Nat.add_comm]
      · simp [List.count_cons, h, ih, eq_comm]

/-- Helper: when a duplicate-free key list covers every record, the group
sizes over those keys sum to the table size — each record is counted in
exactly one group. -/
theorem sum_group_lengths {K : Type} [DecidableEq K] (df : List Record)
    (key : Record → K) (keys : List K) (hnd : keys.Nodup)
    (hcov : ∀ r ∈ df, key r ∈ keys) :
    (keys.map (fun k => (df.filter (fun r => key r = k)).length)).sum = df.length := by
  induction df with
  | nil => simp
  | cons a l ih =>
      have hcov' : ∀ r ∈ l, key r ∈ keys := fun r hr => hcov r (List.mem_cons_of_mem a hr)
      have hterm : ∀ k : K, ((a :: l).filter (fun r => key r = k)).length
          = (if key a = k then 1 else 0) + (l.filter (fun r => key r = k)).length := by
        intro k
        by_cases h : key a = k
        · simp [List.filter_cons, h]
          omega
        · simp [List.filter_cons, h]
      simp only [hterm]
      rw [List.sum_map_add, ih hcov', sum_indicator,
        List.count_eq_one_of_mem hnd (hcov a (List.mem_cons_self a l))]
      simp [Nat.add_comm]

/-- Helper: the key column of the geography aggregation. -/
theorem get_geo_churn_keys (df : List Record) :
    (get_geo_churn df).map Prod.fst =
      canonicalGeos.filter (fun g => df.any (fun r => r.geography = g)) := by
  unfold get_geo_churn
  rw [List.map_map]
  simp [Function.comp_def]

/-- Helper: the key column of the gender aggregation. -/
theorem get_gender_churn_keys (df : List Record) :
    (get_gender_churn df).map Prod.fst =
      canonicalGenders.filter (fun g => df.any (fun r => r.gender = g)) := by
  unfold get_gender_churn
  rw [List.map_map]
  simp [Function.comp_def]

/-- Helper: the key column of the product aggregation. -/
theorem get_product_churn_keys (df : List Record) :
    (get_product_churn df).map Prod.fst =
      List.insertionSort (· ≤ ·) (df.map (·.numProducts)).dedup := by
  unfold get_product_churn
  rw [List.map_map]
  simp [Function.comp_def]

/-- Helper: the key column of the active-status aggregation. -/
theorem get_active_churn_keys (df : List Record) :
    (get_active_churn df).map Prod.fst = [false, true] := rfl

/-- Helper: every geography value lies in the canonical list. -/
theorem geography_mem_canonical (g : Geo) : g ∈ canonicalGeos := by
  cases g <;> simp [canonicalGeos]

/-- Helper: every gender value lies in the canonical list. -/
theorem gender_mem_canonical (g : Gender) : g ∈ canonicalGenders := by
  cases g <;> simp [canonicalGenders]

/-- C9: for each direct categorical dimension — geography, gender, product
count, active status — the per-category sample counts attached to the
aggregation result sum to the size of the (filtered) input table: every
record is counted in exactly one category. -/
theorem sample_counts_sum_to_table_size (df : List Record) :
    (((sampleCounts df (fun r => r.geography) ((get_geo_churn df).map Prod.fst)).map Prod.snd).sum = df.length) ∧
    (((sampleCounts df (fun r => r.gender) ((get_gender_churn df).map Prod.fst)).map Prod.snd).sum = df.length) ∧
    (((sampleCounts df (fun r => r.numProducts) ((get_product_churn df).map Prod.fst)).map Prod.snd).sum = df.length) ∧
    (((sampleCounts df (fun r => r.isActive) ((get_active_churn df).map Prod.fst)).map Prod.snd).sum = df.length) := by
  refine ⟨?_, ?_, ?_, ?_⟩
  · rw [get_geo_churn_keys]
    unfold sampleCounts
    rw [List.map_map]
    exact sum_group_lengths df (fun r => r.geography) _
      (List.Nodup.filter _ (by decide))
      (fun r hr => List.mem_filter.mpr
        ⟨geography_mem_canonical r.geography,
         List.any_eq_true.mpr ⟨r, hr, by simp⟩⟩)
  · rw [get_gender_churn_keys]
    unfold sampleCounts
    rw [List.map_map]
    exact sum_group_lengths df (fun r => r.gender) _
      (List.Nodup.filter _ (by decide))
      (fun r hr => List.mem_filter.mpr
        ⟨gender_mem_canonical r.gender,
         List.any_eq_true.mpr ⟨r, hr, by simp⟩⟩)
  · rw [get_product_churn_keys]
    unfold sampleCounts
    rw [List.map_map]
    exact sum_group_lengths df (fun r => r.numProducts) _
      ((List.perm_insertionSort _ _).nodup_iff.mpr ((df.map (·.numProducts)).nodup_dedup))
      (fun r hr => (List.perm_insertionSort _ _).mem_iff.mpr
        (List.mem_dedup.mpr (List.mem_map.mpr ⟨r, hr, rfl⟩)))
  · rw [get_active_churn_keys]
    unfold sampleCounts
    rw [List.map_map]
    exact sum_group_lengths df (fun r => r.isActive) [false, true]
      (by decide)
      (fun r _ => by cases h : r.isActive <;> simp)

/-- C10: the geography, gender and product-count aggregations report
exactly the observed category labels — a category with no matching record
is absent, not reported with a 0 rate — in ascending label order (a
sublist of the canonical orderings for the enumerated columns, a sorted
list for product counts); only the active-status dimension re-inserts its
missing categories, always reporting exactly [Inactive, Active]. -/
theorem observed_categories_only_except_active (df : List Record) :
    (∀ g : Geo, g ∈ (get_geo_churn df).map Prod.fst ↔ ∃ r ∈ df, r.geography = g) ∧
    List.Sublist ((get_geo_churn df).map Prod.fst) canonicalGeos ∧
    (∀ g : Gender, g ∈ (get_gender_churn df).map Prod.fst ↔ ∃ r ∈ df, r.gender = g) ∧
    List.Sublist ((get_gender_churn df).map Prod.fst) canonicalGenders ∧
    (∀ k : ℕ, k ∈ (get_product_churn df).map Prod.fst ↔ ∃ r ∈ df, r.numProducts = k) ∧
    List.Sorted (· ≤ ·) ((get_product_churn df).map Prod.fst) ∧
    (get_active_churn df).map Prod.fst = [false, true] := by
  refine ⟨?_, ?_, ?_, ?_, ?_, ?_, rfl⟩
  · intro g
    rw [get_geo_churn_keys]
    constructor
    · intro hmem
      rcases List.any_eq_true.mp (List.mem_filter.mp hmem).2 with ⟨r, hr, hg⟩
      exact ⟨r, hr, by simpa using hg⟩
    · rintro ⟨r, hr, rfl⟩
      exact List.mem_filter.mpr
        ⟨geography_mem_canonical _, List.any_eq_true.mpr ⟨r, hr, by simp⟩⟩
  · rw [get_geo_churn_keys]
    exact List.filter_sublist _
  · intro g
    rw [get_gender_churn_keys]
    constructor
    · intro hmem
      rcases List.any_eq_true.mp (List.mem_filter.mp hmem).2 with ⟨r, hr, hg⟩
      exact ⟨r, hr, by simpa using hg⟩
    · rintro ⟨r, hr, rfl⟩
      exact List.mem_filter.mpr
        ⟨gender_mem_canonical _, List.any_eq_true.mpr ⟨r, hr, by simp⟩⟩
  · rw [get_gender_churn_keys]
    exact List.filter_sublist _
  · intro k
    rw [get_product_churn_keys]
    constructor
    · intro hmem
      rcases List.mem_map.mp (List.mem_dedup.mp
        ((List.perm_insertionSort _ _).mem_iff.mp hmem)) with ⟨r, hr, hk⟩
      exact ⟨r, hr, hk⟩
    · rintro ⟨r, hr, rfl⟩
      exact (List.perm_insertionSort _ _).mem_iff.mpr
        (List.mem_dedup.mpr (List.mem_map.mpr ⟨r, hr, rfl⟩))
  · rw [get_product_churn_keys]
    exact List.sorted_insertionSort _ _

/-- C10 witness: on a one-record table (Germany, Male, 2 products, active)
the observed labels appear and the unobserved ones do not, while the
active dimension still lists both statuses. -/
theorem observed_categories_only_except_active_witness :
    Geo.Germany ∈ (get_geo_churn [rSample]).map Prod.fst ∧
    ¬ Geo.Spain ∈ (get_geo_churn [rSample]).map Prod.fst ∧
    (2 : ℕ) ∈ (get_product_churn [rSample]).map Prod.fst ∧
    (get_active_churn [rSample]).map Prod.fst = [false, true] :=
  ⟨((observed_categories_only_except_active [rSample]).1 Geo.Germany).mpr
      ⟨rSample, by decide, by decide⟩,
   fun hmem => by
      rcases ((observed_categories_only_except_active [rSample]).1 Geo.Spain).mp hmem with
        ⟨r, hr, hg⟩
      revert hg
      rcases List.mem_singleton.mp hr with rfl
      decide,
   ((observed_categories_only_except_active [rSample]).2.2.2.2.1 2).mpr
      ⟨rSample, by decide, by decide⟩,
   (observed_categories_only_except_active [rSample]).2.2.2.2.2.2⟩

/-- Helper: a churn percentage always lies in [0, 100]. -/
theorem churnPct_bounds (l : List Record) : 0 ≤ churnPct l ∧ churnPct l ≤ 100 := by
  unfold churnPct
  constructor
  · positivity
  · rcases Nat.eq_zero_or_pos l.length with h | h
    · have : l = [] := List.length_eq_zero.mp h
      subst this
      norm_num
    · have hl : (0 : ℚ) < (l.length : ℚ) := by exact_mod_cast h
      have hc : ((l.countP (·.exited)) : ℚ) ≤ (l.length : ℚ) := by
        exact_mod_cast List.countP_le_length _
      have hdiv : ((l.countP (·.exited)) : ℚ) / (l.length : ℚ) ≤ 1 :=
        (div_le_one hl).mpr hc
      linarith

/-- C8: every churn rate any aggregation produces lies in [0, 100]; an
empty group in the active dimension is reported with rate 0, and the
headline churn-rate metric of an empty filtered table is a defined 0, not
a division error. -/
theorem churn_rates_bounded_and_empty_is_zero (df : List Record) :
    (∀ p ∈ get_churn_by_age df, 0 ≤ p.2 ∧ p.2 ≤ 100) ∧
    (∀ p ∈ get_churn_by_balance df, 0 ≤ p.2 ∧ p.2 ≤ 100) ∧
    (∀ p ∈ get_geo_churn df, 0 ≤ p.2 ∧ p.2 ≤ 100) ∧
    (∀ p ∈ get_product_churn df, 0 ≤ p.2 ∧ p.2 ≤ 100) ∧
    (∀ p ∈ get_gender_churn df, 0 ≤ p.2 ∧ p.2 ≤ 100) ∧
    (∀ p ∈ get_active_churn df, 0 ≤ p.2 ∧ p.2 ≤ 100) ∧
    (∀ p ∈ get_active_churn df, df.filter (fun r => r.isActive = p.1) = [] → p.2 = 0) ∧
    (0 ≤ churnRateMetric df ∧ churnRateMetric df ≤ 100) ∧
    churnRateMetric [] = 0 := by
  refine ⟨?_, ?_, ?_, ?_, ?_, ?_, ?_, ?_, rfl⟩
  · intro p hp
    rcases List.mem_map.mp hp with ⟨i, _, rfl⟩
    exact churnPct_bounds _
  · intro p hp
    rcases List.mem_map.mp hp with ⟨i, _, rfl⟩
    exact churnPct_bounds _
  · intro p hp
    rcases List.mem_map.mp hp with ⟨g, _, rfl⟩
    exact churnPct_bounds _
  · intro p hp
    rcases List.mem_map.mp hp with ⟨k, _, rfl⟩
    exact churnPct_bounds _
  · intro p hp
    rcases List.mem_map.mp hp with ⟨g, _, rfl⟩
    exact churnPct_bounds _
  · intro p hp
    rcases List.mem_map.mp hp with ⟨b, _, rfl⟩
    simp only
    split
    · norm_num
    · exact churnPct_bounds _
  · intro p hp hempty
    rcases List.mem_map.mp hp with ⟨b, _, rfl⟩
    simp only
    rw [show df.filter (fun r => r.isActive = b) = [] from hempty]
    rfl
  · unfold churnRateMetric
    split
    · exact churnPct_bounds df
    · norm_num

/-- C8 witness: on the empty table the empty Inactive group is reported
with rate 0, within bounds, and the headline metric is 0. -/
theorem churn_rates_bounded_and_empty_is_zero_witness :
    (0 ≤ ((false : Bool), (0 : ℚ)).2 ∧ ((false : Bool), (0 : ℚ)).2 ≤ 100) ∧
    ((false : Bool), (0 : ℚ)).2 = 0 ∧
    churnRateMetric [] = 0 :=
  ⟨(churn_rates_bounded_and_empty_is_zero []).2.2.2.2.2.1 (false, 0) (by decide),
   (churn_rates_bounded_and_empty_is_zero []).2.2.2.2.2.2.1 (false, 0) (by decide) rfl,
   (churn_rates_bounded_and_empty_is_zero []).2.2.2.2.2.2.2.2⟩
